import Mathlib

/-!
Verification development for the ResearchBuilder section-generation pipeline
(source: main.py).  The Python source is shallowly embedded: pure helpers
become Lean functions, the mutable application object becomes an explicit
state record, and the external generation service and the cancellation flag
become explicit parameters (a per-call oracle and a per-check boolean trace).
-/

set_option autoImplicit false

/-- Python str.strip considers these characters whitespace (ASCII range). -/
def isPySpace (c : Char) : Bool :=
  c == ' ' || c == '\t' || c == '\n' || c == '\x0d' || c == '\x0b' || c == '\x0c'

/-- Python str.strip: drop whitespace from both ends. -/
def pyStrip (s : String) : String :=
  (((s.data.dropWhile isPySpace).reverse.dropWhile isPySpace).reverse).asString

/-- Python dict.get(k, d) over an insertion-ordered association list. -/
def dictGet (m : List (String × String)) (k : String) (d : String) : String :=
  match m.lookup k with
  | some v => v
  | none => d

/-- Python dict assignment m[k] = v: replace in place when the key exists,
append otherwise (insertion order preserved). -/
def dictSet {β : Type} (m : List (String × β)) (k : String) (v : β) :
    List (String × β) :=
  if (m.lookup k).isSome then
    m.map (fun p => if p.1 = k then (k, v) else p)
  else m ++ [(k, v)]

/-- One inner citation dictionary: synthetic key to citation text. -/
abbrev CitationDict := List (String × String)

/-- The citations attribute: section name to its citation dictionary. -/
abbrev CitationMap := List (String × CitationDict)

/-- Ordered mapping from section name to generated text. -/
abbrev SectionTexts := List (String × String)

/-- Scanner for the regular expression used in extract_citations: every
match of a literal open parenthesis, one or more characters other than a
close parenthesis, then a close parenthesis, scanning left to right and
resuming after each match.  The first argument is none while outside a
candidate match and some buf while characters of a candidate are being
collected after an open parenthesis. -/
def scanParens : Option (List Char) → List Char → List (List Char)
  | _, [] => []
  | none, c :: rest =>
    if c = '(' then scanParens (some []) rest else scanParens none rest
  | some buf, c :: rest =>
    if c = ')' then
      if buf.isEmpty then scanParens none rest
      else buf :: scanParens none rest
    else scanParens (some (buf ++ [c])) rest

/-- re.findall applied to the pattern of extract_citations. -/
def findParenCitations (text : String) : List String :=
  (scanParens none text.data).map List.asString

/-- The inner dict comprehension of extract_citations: keys citation_0,
citation_1, ... in discovery order. -/
def enumCitationKeys (l : List String) : CitationDict :=
  l.enum.map (fun p => ("citation_" ++ toString p.1, p.2))

/-- extract_citations from main.py: find parenthesized substrings in the
generated text; when at least one is found, store the keyed dictionary
under the section name; otherwise leave the citations map untouched. -/
def extract_citations (citations : CitationMap) (text : String)
    (section_name : String) : CitationMap :=
  let found := findParenCitations text
  if found ≠ [] then
    dictSet citations section_name (enumCitationKeys found)
  else citations

/-- Python str.format restricted to keyword fields: scan the template, and
replace each field between braces by the value bound to that name.  The
templates of main.py only ever reference bound names, so an unbound field
is rendered empty here instead of raising. -/
def pyFormatAux (vals : List (String × String)) :
    Option (List Char) → List Char → List Char
  | _, [] => []
  | none, c :: rest =>
    if c = '{' then pyFormatAux vals (some []) rest
    else c :: pyFormatAux vals none rest
  | some buf, c :: rest =>
    if c = '}' then
      (dictGet vals buf.asString "").data ++ pyFormatAux vals none rest
    else pyFormatAux vals (some (buf ++ [c])) rest

/-- str.format on a whole template string. -/
def pyFormat (t : String) (vals : List (String × String)) : String :=
  (pyFormatAux vals none t.data).asString

/-- The contexts dictionary of build_context, transcribed verbatim from
main.py (triple-quoted strings keep their newlines and indentation). -/
def contextTemplates : List (String × String) :=
  [("Abstract", ""),
   ("Introduction", "Previously in the Abstract, we established the research focus on {topic} \n            using {methodology} which yielded {results}. Include relevant citations: {citations}."),
   ("Methodology", "Based on the research objectives outlined in the Introduction regarding {topic},\n            detail the following methodological approach: {methodology}. Reference similar methodologies: {citations}."),
   ("Results", "Following the {methodology} described in the Methodology section,\n            present these findings: {results}. Compare with similar studies: {citations}."),
   ("Discussion", "Considering the results showing {results} obtained through {methodology},\n            interpret these findings in the context of {topic}. Include comparative analysis: {citations}."),
   ("Conclusion", "Given the findings {results} and their discussion in relation to {topic},\n            provide concluding thoughts. Reference key literature: {citations}.")]

/-- build_context from main.py.  The citation text joins the values stored
under the CURRENT section name (empty when the map is empty or the key is
absent); the base template is looked up with default empty, and an empty
template short-circuits to the empty string. -/
def build_context (section_name : String)
    (previous_sections : List (String × String))
    (citations : CitationMap) : String :=
  let citation_text :=
    if citations ≠ [] ∧ (citations.lookup section_name).isSome then
      String.intercalate ", "
        (((citations.lookup section_name).getD []).map Prod.snd)
    else ""
  let base_context := dictGet contextTemplates section_name ""
  if base_context = "" then ""
  else
    pyFormat base_context
      [("topic", dictGet previous_sections "topic" ""),
       ("methodology", dictGet previous_sections "methodology" ""),
       ("results", dictGet previous_sections "results" ""),
       ("citations", citation_text)]

/-- The fixed ordered list of the six sections with their prompt templates,
transcribed verbatim from main.py. -/
def sections : List (String × String) :=
  [("Abstract",
    "Write a detailed and structured abstract for a research paper about {topic}. Summarize the background, objectives, methods, key results, and conclusions in a concise academic style, including the significance of the findings."),
   ("Introduction",
    "Write a comprehensive introduction for a research paper on {topic}. Include the study\x27s significance, relevant background, existing research gaps, and how this study addresses them. Use an engaging and academic tone."),
   ("Methodology",
    "Provide an in-depth methodology section for a research paper about {topic}. Include participant demographics, data collection instruments, procedures, and data analysis methods. Mention ethical considerations if applicable."),
   ("Results",
    "Elaborate on the research findings for {topic}. Include detailed statistical results, tables if applicable, subgroup analyses, and comparisons to existing research. Ensure clear explanations of statistical terms."),
   ("Discussion",
    "Write a critical discussion of the results obtained in the study about {topic}. Analyze implications, strengths, limitations, compare with related literature, and suggest future research directions."),
   ("Conclusion",
    "Summarize the key findings and their significance for the study on {topic}. Discuss potential applications of the research, limitations, and recommendations for future studies.")]

/-- Python str.title on a character list: a cased letter is uppercased when
the previous character is not a letter and lowercased otherwise. -/
def pyTitleAux : Bool → List Char → List Char
  | _, [] => []
  | prevAlpha, c :: rest =>
    if c.isAlpha then
      (if prevAlpha then c.toLower else c.toUpper) :: pyTitleAux true rest
    else c :: pyTitleAux false rest

/-- Python str.title on a string. -/
def pyTitle (s : String) : String := (pyTitleAux false s.data).asString

/-- The four user inputs read from the entry widgets. -/
structure RunInputs where
  api_key : String
  topic : String
  methodology : String
  results : String

/-- The required-field loop body of validate_inputs. -/
def validateFields : List (String × String) → Bool × String
  | [] => (true, "")
  | (f, v) :: rest =>
    if pyStrip v = "" then (false, pyTitle f ++ " is required")
    else validateFields rest

/-- validate_inputs from main.py: the four required fields are checked in
declaration order and the first blank one is reported. -/
def validate_inputs (inp : RunInputs) : Bool × String :=
  validateFields
    [("api_key", inp.api_key), ("topic", inp.topic),
     ("methodology", inp.methodology), ("results", inp.results)]

/-- Observable state of the application object: the run-scoped maps, the
per-section progress rows (name, status text, progress value), the main
status label (text, is error), widget enablement, the active-run handle
and the sticky markdown flag. -/
structure AppState where
  citations : CitationMap
  section_texts : SectionTexts
  statuses : List (String × String × ℚ)
  status_label : String × Bool
  inputs_enabled : Bool
  current_task : Bool
  save_as_markdown : Bool
deriving DecidableEq

/-- update_progress from main.py: set status text and progress for the row
of the named section; rows of other sections are untouched, an unknown
name changes nothing. -/
def update_progress (sts : List (String × String × ℚ))
    (section_name status : String) (progress : ℚ) :
    List (String × String × ℚ) :=
  sts.map (fun p => if p.1 = section_name then (section_name, status, progress) else p)

/-- The reset applied by start_generation: every section row back to
Pending with progress 0. -/
def pendingStatuses : List (String × String × ℚ) :=
  sections.map (fun s => (s.1, "Pending", (0 : ℚ)))

/-- start_generation from main.py: when the active-run handle is non-null
the request returns immediately and the state is untouched; otherwise
inputs are disabled, the label is set, the run maps are cleared, every row
is reset to Pending and the handle is taken. -/
def start_generation (st : AppState) : AppState :=
  if st.current_task then st
  else
    { st with
      inputs_enabled := false,
      status_label := ("Generating paper...", false),
      citations := [],
      section_texts := [],
      statuses := pendingStatuses,
      current_task := true }

/-- The fixed directive block of the prompt f-string in generate_paper,
including the 20-space indentation of the triple-quoted literal. -/
def promptDirectives : String :=
  "\n                    \n                    Requirements:\n                    1. Use academic writing style\n                    2. Include proper citations\n                    3. Maintain consistent formatting\n                    4. Ensure factual accuracy\n                    5. Cross-reference with existing literature\n                    \n                    "

/-- The full prompt of one section: built context, the directive block, the
formatted section template, and the trailing newline plus indentation left
by the closing triple quote. -/
def mkPrompt (context : String) (tmpl : String)
    (vals : List (String × String)) : String :=
  context ++ promptDirectives ++ pyFormat tmpl vals ++ "\n                    "

/-- How one run ends: all sections generated, the cancellation flag was
observed at a section boundary, or a section raised (with the wrapped
message). -/
inductive RunExit where
  | finished
  | cancelled
  | failed (msg : String)
deriving DecidableEq

/-- Result of the section loop: final state, how the loop ended, the index
of the next read of the cancellation flag, and how many generation calls
were issued. -/
structure LoopOut where
  st : AppState
  exitKind : RunExit
  nextCheck : Nat
  genCalls : Nat
deriving DecidableEq

/-- The for-loop of generate_paper over the remaining sections.  gen is the
external generation collaborator, indexed by the number of calls issued so
far; closing is the value of the cancellation flag at each successive read.
Each iteration mirrors the source: boundary check of the flag, status to
Generating with progress one half, context and prompt construction, the
external call, then either citation extraction, text storage and Complete
with progress one, or Failed with progress zero and an exception wrapping
the cause with the section name. -/
def runSections (gen : Nat → String → Except String String)
    (closing : Nat → Bool) (vals : List (String × String)) :
    List (String × String) → Nat → Nat → AppState → LoopOut
  | [], check, calls, st => ⟨st, RunExit.finished, check, calls⟩
  | (name, tmpl) :: rest, check, calls, st =>
    if closing check then ⟨st, RunExit.cancelled, check + 1, calls⟩
    else
      let st1 := { st with statuses := update_progress st.statuses name "Generating..." (1/2) }
      let context := build_context name vals st1.citations
      let prompt := mkPrompt context tmpl vals
      match gen calls prompt with
      | Except.error e =>
        ⟨{ st1 with statuses := update_progress st1.statuses name "Failed" 0 },
         RunExit.failed ("Error generating " ++ name ++ ": " ++ e),
         check + 1, calls + 1⟩
      | Except.ok text =>
        let st2 :=
          { st1 with
            citations := extract_citations st1.citations text name,
            section_texts := dictSet st1.section_texts name text,
            statuses := update_progress st1.statuses name "Complete" 1 }
        runSections gen closing vals rest (check + 1) (calls + 1) st2

/-- Observable outcome of one generate_paper invocation: the final state,
the section texts handed to save_document (none when no save happened) and
the number of external generation calls issued. -/
structure RunOutcome where
  st : AppState
  saved : Option SectionTexts
  genCalls : Nat
deriving DecidableEq

/-- generate_paper from main.py.  Validation failure reports the message and
returns (the finally block re-enables inputs and clears the handle).  On a
wrapped section failure the outer handler reports Error plus the message.
Otherwise the post-loop read of the cancellation flag decides whether the
document is saved and success is reported.  External API configuration and
the inter-section sleep have no observable effect in this model. -/
def generate_paper (gen : Nat → String → Except String String)
    (closing : Nat → Bool) (inp : RunInputs) (st : AppState) : RunOutcome :=
  let v := validate_inputs inp
  if v.1 = false then
    ⟨{ st with status_label := (v.2, true), inputs_enabled := true, current_task := false },
     none, 0⟩
  else
    let vals :=
      [("topic", inp.topic), ("methodology", inp.methodology), ("results", inp.results)]
    let out := runSections gen closing vals sections 0 0 st
    match out.exitKind with
    | RunExit.failed m =>
      ⟨{ out.st with
          status_label := ("Error: " ++ m, true),
          inputs_enabled := true, current_task := false },
       none, out.genCalls⟩
    | _ =>
      if closing out.nextCheck then
        ⟨{ out.st with inputs_enabled := true, current_task := false },
         none, out.genCalls⟩
      else
        ⟨{ out.st with
            status_label := ("Research paper generated successfully!", false),
            inputs_enabled := true, current_task := false },
         some out.st.section_texts, out.genCalls⟩

/-- Result of one save_document call: the filenames written in order, the
markdown flag attribute after the call, and either the status label update
or the exception raised while building it. -/
structure SaveOutcome where
  files : List String
  save_as_markdown : Bool
  result : Except String (String × Bool)

/-- save_document from main.py.  The Word file is always written first.
When the markdown checkbox is set, the sticky attribute is set, the
markdown file is written and the label names both files.  When the checkbox
is clear but the attribute is still True from an earlier call, the final
f-string evaluates the local filename_md that was never assigned in this
call, so the call raises after the Word file is on disk. -/
def save_document (save_as_markdown : Bool) (markdownChecked : Bool)
    (timestamp : String) (section_texts : SectionTexts) : SaveOutcome :=
  let filename_word := "research_paper_" ++ timestamp ++ ".docx"
  if markdownChecked then
    let filename_md := "research_paper_" ++ timestamp ++ ".md"
    { files := [filename_word, filename_md],
      save_as_markdown := true,
      result := Except.ok ("Paper saved as " ++ filename_word ++ " and " ++ filename_md, false) }
  else if save_as_markdown then
    { files := [filename_word],
      save_as_markdown := save_as_markdown,
      result := Except.error "UnboundLocalError: filename_md" }
  else
    { files := [filename_word],
      save_as_markdown := save_as_markdown,
      result := Except.ok ("Paper saved as " ++ filename_word ++ " and ", false) }

/-- The list-building loop of format_to_markdown. -/
def markdownSections : SectionTexts → List String
  | [] => []
  | (s, c) :: rest => ("## " ++ s ++ "\n\n" ++ pyStrip c ++ "\n") :: markdownSections rest

/-- Python str.join over a list of strings. -/
def pyJoin (sep : String) : List String → String
  | [] => ""
  | [x] => x
  | x :: y :: xs => x ++ sep ++ pyJoin sep (y :: xs)

/-- format_to_markdown from main.py: collect one markdown block per section
and join the blocks with the horizontal-rule separator. -/
def format_to_markdown (section_texts : SectionTexts) : String :=
  pyJoin "\n---\n" (markdownSections section_texts)

/-- The markdown export as the specification words it: one block per
section, in order, joined with the literal separator. -/
def markdownExportSpec (section_texts : SectionTexts) : String :=
  String.intercalate "\n---\n"
    (section_texts.map (fun p => "## " ++ p.1 ++ "\n\n" ++ pyStrip p.2 ++ "\n"))

/-- The application state as generate_paper sees it right after
start_generation took the handle on a fresh application object. -/
def runReadyState : AppState :=
  ⟨[], [], pendingStatuses, ("Generating paper...", false), false, true, false⟩

/-- Suffix form of a separated join: separator before every element. -/
def joinTail (sep : String) : List String → String
  | [] => ""
  | a :: as => sep ++ a ++ joinTail sep as

lemma intercalate_go_eq (s : String) :
    ∀ (as : List String) (acc : String),
      String.intercalate.go acc s as = acc ++ joinTail s as := by
  intro as
  induction as with
  | nil => intro acc; simp [String.intercalate.go, joinTail]
  | cons a as2 ih =>
    intro acc
    simp [String.intercalate.go, joinTail, ih, String.append_assoc]

lemma pyJoin_cons_eq (s : String) :
    ∀ (xs : List String) (x : String), pyJoin s (x :: xs) = x ++ joinTail s xs := by
  intro xs
  induction xs with
  | nil => intro x; simp [pyJoin, joinTail]
  | cons y ys ih =>
    intro x
    simp [pyJoin, joinTail, ih, String.append_assoc]

lemma pyJoin_eq_intercalate (s : String) (l : List String) :
    pyJoin s l = String.intercalate s l := by
  cases l with
  | nil => rfl
  | cons x xs => rw [String.intercalate, intercalate_go_eq, pyJoin_cons_eq]

lemma markdownSections_eq_map (st : SectionTexts) :
    markdownSections st
      = st.map (fun p => "## " ++ p.1 ++ "\n\n" ++ pyStrip p.2 ++ "\n") := by
  induction st with
  | nil => rfl
  | cons p rest ih => simp [markdownSections, ih]

/-- Claim C6: for every non-empty ordered mapping of section name to text,
the markdown export equals the per-section blocks joined with the literal
horizontal-rule separator, in insertion order. -/
theorem format_to_markdown_eq_spec (st : SectionTexts) (h : st ≠ []) :
    format_to_markdown st = markdownExportSpec st := by
  unfold format_to_markdown markdownExportSpec
  rw [markdownSections_eq_map, pyJoin_eq_intercalate]

/-- Witness for claim C6 at a concrete two-section mapping. -/
theorem format_to_markdown_eq_spec_witness :
    ([("Abstract", "  body one \n"), ("Results", "body two")] : SectionTexts) ≠ []
    ∧ format_to_markdown [("Abstract", "  body one \n"), ("Results", "body two")]
        = markdownExportSpec [("Abstract", "  body one \n"), ("Results", "body two")]
    ∧ format_to_markdown [("Abstract", "  body one \n"), ("Results", "body two")]
        = "## Abstract\n\nbody one\n\n---\n## Results\n\nbody two\n" :=
  ⟨by simp,
   format_to_markdown_eq_spec [("Abstract", "  body one \n"), ("Results", "body two")] (by simp),
   by rfl⟩

/-- Claim C9: the context builder returns the empty string for the first
section (Abstract) for every prior-inputs mapping and citation map, and
likewise returns the empty string, without failing, for any section name
with no registered narrative template. -/
theorem build_context_empty_for_first_and_unregistered
    (name : String) (prev : List (String × String)) (cits : CitationMap)
    (h : contextTemplates.lookup name = none) :
    build_context "Abstract" prev cits = "" ∧ build_context name prev cits = "" := by
  constructor
  · rfl
  · simp [build_context, dictGet, h]

/-- Witness for claim C9 at a concrete unregistered name and concrete maps. -/
theorem build_context_empty_for_first_and_unregistered_witness :
    contextTemplates.lookup "Appendix" = none
    ∧ build_context "Abstract" [("topic", "T")] [("Abstract", [("citation_0", "X")])] = ""
    ∧ build_context "Appendix" [("topic", "T")] [("Abstract", [("citation_0", "X")])] = "" := by
  have h := build_context_empty_for_first_and_unregistered "Appendix"
    [("topic", "T")] [("Abstract", [("citation_0", "X")])] (by rfl)
  exact ⟨by rfl, h.1, h.2⟩

/-- Claim C7: the citation extractor on the sample sentence yields exactly
the two citations, in discovery order, under the synthetic keys citation_0
and citation_1. -/
theorem extract_citations_two_example :
    extract_citations []
        "Smith showed X (Smith, 2020) and Jones confirmed it (Jones, 2021)."
        "Results"
      = [("Results", [("citation_0", "Smith, 2020"), ("citation_1", "Jones, 2021")])] := by
  rfl

/-- Claim C4: starting a run while the active-run handle is non-null leaves
the whole application state unchanged. -/
theorem start_generation_noop_when_running (st : AppState)
    (h : st.current_task = true) : start_generation st = st := by
  simp [start_generation, h]

/-- Witness for claim C4 at a concrete mid-run state. -/
theorem start_generation_noop_when_running_witness :
    (⟨[("Abstract", [("citation_0", "X")])], [("Abstract", "text")],
        pendingStatuses, ("Generating paper...", false), false, true, false⟩ : AppState).current_task = true
    ∧ start_generation
        ⟨[("Abstract", [("citation_0", "X")])], [("Abstract", "text")],
          pendingStatuses, ("Generating paper...", false), false, true, false⟩
      = ⟨[("Abstract", [("citation_0", "X")])], [("Abstract", "text")],
          pendingStatuses, ("Generating paper...", false), false, true, false⟩ :=
  ⟨rfl,
   start_generation_noop_when_running
     ⟨[("Abstract", [("citation_0", "X")])], [("Abstract", "text")],
       pendingStatuses, ("Generating paper...", false), false, true, false⟩ rfl⟩

/-- Claim C10: the markdown flag is set the first time a markdown save
happens and no call resets it; a later save with the checkbox clear then
raises while building the status message, after the Word file was written
and with no markdown file written. -/
theorem save_document_stale_markdown_flag (ts : String) (texts : SectionTexts) :
    (save_document false true ts texts).save_as_markdown = true
    ∧ (∀ (flag checked : Bool) (ts2 : String) (texts2 : SectionTexts),
        flag = true → (save_document flag checked ts2 texts2).save_as_markdown = true)
    ∧ (save_document true false ts texts).result
        = Except.error "UnboundLocalError: filename_md"
    ∧ (save_document true false ts texts).files
        = ["research_paper_" ++ ts ++ ".docx"] := by
  refine ⟨rfl, ?_, rfl, rfl⟩
  intro flag checked ts2 texts2 hf
  subst hf
  cases checked <;> rfl

/-- Witness for claim C10 at a concrete timestamp and section map. -/
theorem save_document_stale_markdown_flag_witness :
    (save_document false true "20250101_120000" [("Abstract", "A")]).save_as_markdown = true
    ∧ (save_document true false "20250101_120000" [("Abstract", "A")]).result
        = Except.error "UnboundLocalError: filename_md"
    ∧ (save_document true false "20250101_120000" [("Abstract", "A")]).files
        = ["research_paper_20250101_120000.docx"] :=
  ⟨(save_document_stale_markdown_flag "20250101_120000" [("Abstract", "A")]).1,
   (save_document_stale_markdown_flag "20250101_120000" [("Abstract", "A")]).2.2.1,
   (save_document_stale_markdown_flag "20250101_120000" [("Abstract", "A")]).2.2.2⟩

set_option maxRecDepth 40000 in
/-- Claim C1 (refuted): with citations already accumulated from the earlier
Abstract section, the context built for Introduction is identical to the
context built with an empty citation map, and renders the citations slot
empty; prior sections accumulated citations never reach the context,
because build_context reads the key of the section being generated, which
is only written after that section is generated. -/
theorem context_ignores_prior_citations :
    build_context "Introduction"
        [("topic", "T"), ("methodology", "M"), ("results", "R")]
        [("Abstract", [("citation_0", "Smith, 2020")])]
      = build_context "Introduction"
        [("topic", "T"), ("methodology", "M"), ("results", "R")] []
    ∧ build_context "Introduction"
        [("topic", "T"), ("methodology", "M"), ("results", "R")]
        [("Abstract", [("citation_0", "Smith, 2020")])]
      = "Previously in the Abstract, we established the research focus on T \n            using M which yielded R. Include relevant citations: ." := by
  exact ⟨rfl, rfl⟩

/-- A parenthesized substring as the extractor pattern understands it: an
open parenthesis, a non-empty run of characters free of close parentheses,
then a close parenthesis. -/
def containsParenSpan (l : List Char) : Prop :=
  ∃ pre inner post,
    l = pre ++ '(' :: (inner ++ ')' :: post) ∧ inner ≠ [] ∧ ')' ∉ inner

lemma close_split (l : List Char) (h : ')' ∈ l) :
    ∃ inner post, l = inner ++ ')' :: post ∧ ')' ∉ inner := by
  induction l with
  | nil => cases h
  | cons c rest ih =>
    by_cases hc : c = ')'
    · exact ⟨[], rest, by simp [hc], by simp⟩
    · have hr : ')' ∈ rest := by
        rcases List.mem_cons.mp h with h1 | h2
        · exact absurd h1.symm hc
        · exact h2
      obtain ⟨inner, post, heq, hnot⟩ := ih hr
      refine ⟨c :: inner, post, by simp [heq], ?_⟩
      intro hmem
      rcases List.mem_cons.mp hmem with h1 | h2
      · exact hc h1.symm
      · exact hnot h2

lemma scanParens_some_no_close (l : List Char) (h : ')' ∉ l) :
    ∀ buf, scanParens (some buf) l = [] := by
  induction l with
  | nil => intro buf; rfl
  | cons c rest ih =>
    intro buf
    have hc : ¬ (c = ')') := fun hh => h (by simp [hh])
    have hr : ')' ∉ rest := fun hm => h (List.mem_cons_of_mem c hm)
    simp only [scanParens, if_neg hc]
    exact ih hr (buf ++ [c])

lemma scanParens_some_close :
    ∀ (inner : List Char), ')' ∉ inner → ∀ (buf post : List Char),
      scanParens (some buf) (inner ++ ')' :: post)
        = if buf ++ inner = [] then scanParens none post
          else (buf ++ inner) :: scanParens none post := by
  intro inner
  induction inner with
  | nil =>
    intro _ buf post
    cases buf <;> simp [scanParens]
  | cons c r ih =>
    intro h buf post
    have hc : ¬ (c = ')') := fun hh => h (by simp [hh])
    have hr : ')' ∉ r := fun hm => h (List.mem_cons_of_mem c hm)
    have h1 : ¬ ((buf ++ [c]) ++ r = []) := by simp
    have h2 : ¬ (buf ++ c :: r = []) := by simp
    simp only [List.cons_append, scanParens, if_neg hc, List.append_eq]
    rw [ih hr (buf ++ [c]) post, if_neg h1, if_neg h2]
    simp [List.append_assoc]

lemma containsParenSpan_of_scan_ne (n : Nat) :
    ∀ l : List Char, l.length ≤ n → scanParens none l ≠ [] → containsParenSpan l := by
  induction n with
  | zero =>
    intro l hl h
    have : l = [] := List.eq_nil_of_length_eq_zero (Nat.le_zero.mp hl)
    subst this
    exact absurd rfl h
  | succ n ih =>
    intro l hl h
    cases l with
    | nil => exact absurd rfl h
    | cons c rest =>
      by_cases hc : c = '('
      · subst hc
        have hs : scanParens (some []) rest ≠ [] := by
          simpa [scanParens] using h
        by_cases hmem : ')' ∈ rest
        · obtain ⟨inner, post, heq, hnot⟩ := close_split rest hmem
          by_cases hin : inner = []
          · subst hin
            simp only [List.nil_append] at heq
            have hpost : scanParens none post ≠ [] := by
              rw [heq] at hs
              have hcl := scanParens_some_close [] (by simp) [] post
              simpa using hs
            have hlen : post.length ≤ n := by
              have : rest.length ≤ n := by simpa using hl
              rw [heq] at this
              simp at this
              omega
            obtain ⟨pre2, inner2, post2, heq2, hin2, hnot2⟩ := ih post hlen hpost
            exact ⟨'(' :: ')' :: pre2, inner2, post2, by simp [heq, heq2], hin2, hnot2⟩
          · exact ⟨[], inner, post, by simp [heq], hin, hnot⟩
        · have := scanParens_some_no_close rest hmem []
          exact absurd this hs
      · have hs : scanParens none rest ≠ [] := by
          simpa [scanParens, hc] using h
        have hlen : rest.length ≤ n := by simpa using hl
        obtain ⟨pre, inner, post, heq, hin, hnot⟩ := ih rest hlen hs
        exact ⟨c :: pre, inner, post, by simp [heq], hin, hnot⟩

lemma scanParens_none_eq_nil_of_no_span (l : List Char)
    (h : ¬ containsParenSpan l) : scanParens none l = [] := by
  by_contra hne
  exact h (containsParenSpan_of_scan_ne l.length l (le_refl _) hne)

lemma not_containsParenSpan_of_no_open (l : List Char) (h : '(' ∉ l) :
    ¬ containsParenSpan l := by
  rintro ⟨pre, inner, post, heq, -, -⟩
  apply h
  rw [heq]
  simp

/-- Claim C8: on text with no parenthesized substring the extractor adds no
entry for the section and leaves the whole citation map unchanged; in
particular an absent section key stays absent. -/
theorem extract_citations_no_paren_frame (text : String) (name : String)
    (m : CitationMap) (h : ¬ containsParenSpan text.data) :
    extract_citations m text name = m
    ∧ (m.lookup name = none → (extract_citations m text name).lookup name = none) := by
  have hs : findParenCitations text = [] := by
    unfold findParenCitations
    rw [scanParens_none_eq_nil_of_no_span _ h]
    rfl
  refine ⟨by simp [extract_citations, hs], ?_⟩
  intro hn
  simp [extract_citations, hs, hn]

/-- Witness for claim C8 on a concrete parenthesis-free text and a map
holding another section. -/
theorem extract_citations_no_paren_frame_witness :
    extract_citations [("Abstract", [("citation_0", "Smith, 2020")])]
        "No citations appear in this text." "Results"
      = [("Abstract", [("citation_0", "Smith, 2020")])]
    ∧ ([("Abstract", [("citation_0", "Smith, 2020")])] : CitationMap).lookup "Results"
        = none := by
  have h := extract_citations_no_paren_frame "No citations appear in this text."
    "Results" [("Abstract", [("citation_0", "Smith, 2020")])]
    (not_containsParenSpan_of_no_open _ (by decide))
  exact ⟨h.1, by rfl⟩

/-- Claim C5: with any required input blank after stripping, generate_paper
reports a validation message naming the field as an error, issues no
generation call, saves nothing, and leaves every per-section status (and
the section maps) untouched, so the run never starts generating. -/
theorem blank_input_blocks_run (gen : Nat → String → Except String String)
    (closing : Nat → Bool) (inp : RunInputs) (st : AppState)
    (h : pyStrip inp.api_key = "" ∨ pyStrip inp.topic = ""
      ∨ pyStrip inp.methodology = "" ∨ pyStrip inp.results = "") :
    (generate_paper gen closing inp st).genCalls = 0
    ∧ (generate_paper gen closing inp st).saved = none
    ∧ (generate_paper gen closing inp st).st.statuses = st.statuses
    ∧ (generate_paper gen closing inp st).st.section_texts = st.section_texts
    ∧ (generate_paper gen closing inp st).st.citations = st.citations
    ∧ ∃ f, f ∈ ["Api_Key", "Topic", "Methodology", "Results"]
        ∧ (generate_paper gen closing inp st).st.status_label = (f ++ " is required", true) := by
  have hv : (validate_inputs inp).1 = false
      ∧ ∃ f, f ∈ ["Api_Key", "Topic", "Methodology", "Results"]
          ∧ (validate_inputs inp).2 = f ++ " is required" := by
    by_cases h1 : pyStrip inp.api_key = ""
    · refine ⟨?_, "Api_Key", by simp, ?_⟩ <;>
        simp [validate_inputs, validateFields, h1] <;> rfl
    · by_cases h2 : pyStrip inp.topic = ""
      · refine ⟨?_, "Topic", by simp, ?_⟩ <;>
          simp [validate_inputs, validateFields, h1, h2] <;> rfl
      · by_cases h3 : pyStrip inp.methodology = ""
        · refine ⟨?_, "Methodology", by simp, ?_⟩ <;>
            simp [validate_inputs, validateFields, h1, h2, h3] <;> rfl
        · by_cases h4 : pyStrip inp.results = ""
          · refine ⟨?_, "Results", by simp, ?_⟩ <;>
              simp [validate_inputs, validateFields, h1, h2, h3, h4] <;> rfl
          · rcases h with h | h | h | h <;> first
              | exact absurd h h1
              | exact absurd h h2
              | exact absurd h h3
              | exact absurd h h4
  obtain ⟨hv1, f, hf, hv2⟩ := hv
  refine ⟨?_, ?_, ?_, ?_, ?_, f, hf, ?_⟩ <;>
    simp [generate_paper, hv1, hv2]

/-- Witness for claim C5 with a whitespace-only topic. -/
theorem blank_input_blocks_run_witness :
    pyStrip "   " = ""
    ∧ (generate_paper (fun _ _ => Except.ok "t") (fun _ => false)
        ⟨"key", "   ", "M", "R"⟩ runReadyState).genCalls = 0
    ∧ (generate_paper (fun _ _ => Except.ok "t") (fun _ => false)
        ⟨"key", "   ", "M", "R"⟩ runReadyState).saved = none
    ∧ (generate_paper (fun _ _ => Except.ok "t") (fun _ => false)
        ⟨"key", "   ", "M", "R"⟩ runReadyState).st.statuses = runReadyState.statuses
    ∧ (generate_paper (fun _ _ => Except.ok "t") (fun _ => false)
        ⟨"key", "   ", "M", "R"⟩ runReadyState).st.status_label
        = ("Topic is required", true) := by
  have h := blank_input_blocks_run (fun _ _ => Except.ok "t") (fun _ => false)
    ⟨"key", "   ", "M", "R"⟩ runReadyState (Or.inr (Or.inl (by rfl)))
  exact ⟨by rfl, h.1, h.2.1, h.2.2.1, by rfl⟩

/-- Per-section status rows expected when the external call for section k
(1-based) fails: earlier sections Complete with progress one, section k
Failed with progress zero, later sections Pending with progress zero. -/
def expectedFailStatuses (k : Nat) : List (String × String × ℚ) :=
  sections.enum.map (fun p =>
    (p.2.1, if p.1 + 1 < k then (("Complete", (1 : ℚ)) : String × ℚ)
            else if p.1 + 1 = k then ("Failed", 0) else ("Pending", 0)))

/-- Claim C2: when the external generation call fails on section k of the
six (earlier calls succeeding, flag never set), sections before k stay
Complete at progress one, section k is Failed at progress zero, later
sections stay Pending, no document is saved, exactly k generation calls
were issued, and the reported error wraps the cause with the failing
section name. -/
theorem generation_failure_aborts_run
    (gen : Nat → String → Except String String) (inp : RunInputs) (st : AppState)
    (k : Nat) (e : String) (texts : Nat → String)
    (hst : st.statuses = pendingStatuses)
    (hv : (validate_inputs inp).1 = true)
    (hk1 : 1 ≤ k) (hk2 : k ≤ 6)
    (hok : ∀ i p, i + 1 < k → gen i p = Except.ok (texts i))
    (herr : ∀ p, gen (k - 1) p = Except.error e) :
    (generate_paper gen (fun _ => false) inp st).st.statuses = expectedFailStatuses k
    ∧ (generate_paper gen (fun _ => false) inp st).saved = none
    ∧ (generate_paper gen (fun _ => false) inp st).genCalls = k
    ∧ (generate_paper gen (fun _ => false) inp st).st.status_label
        = ("Error: Error generating " ++ ((sections.map Prod.fst).getD (k - 1) "") ++ ": " ++ e, true) := by
  interval_cases k <;>
    refine ⟨?_, ?_, ?_, ?_⟩ <;>
      simp [generate_paper, hv, sections, runSections, hok, herr, hst,
        update_progress, pendingStatuses, expectedFailStatuses,
        List.enum, List.enumFrom, ← String.append_assoc]

/-- Witness for claim C2: failure on section 3 of 6 with concrete inputs. -/
theorem generation_failure_aborts_run_witness :
    runReadyState.statuses = pendingStatuses
    ∧ (validate_inputs ⟨"key", "T", "M", "R"⟩).1 = true
    ∧ (generate_paper
        (fun i _ => if i + 1 < 3 then Except.ok "Body (Smith, 2020)." else Except.error "boom")
        (fun _ => false) ⟨"key", "T", "M", "R"⟩ runReadyState).st.statuses
        = expectedFailStatuses 3
    ∧ (generate_paper
        (fun i _ => if i + 1 < 3 then Except.ok "Body (Smith, 2020)." else Except.error "boom")
        (fun _ => false) ⟨"key", "T", "M", "R"⟩ runReadyState).saved = none
    ∧ (generate_paper
        (fun i _ => if i + 1 < 3 then Except.ok "Body (Smith, 2020)." else Except.error "boom")
        (fun _ => false) ⟨"key", "T", "M", "R"⟩ runReadyState).genCalls = 3
    ∧ (generate_paper
        (fun i _ => if i + 1 < 3 then Except.ok "Body (Smith, 2020)." else Except.error "boom")
        (fun _ => false) ⟨"key", "T", "M", "R"⟩ runReadyState).st.status_label
        = ("Error: Error generating " ++ (((sections).map Prod.fst).getD (3 - 1) "") ++ ": " ++ "boom", true) := by
  have h := generation_failure_aborts_run
    (fun i _ => if i + 1 < 3 then Except.ok "Body (Smith, 2020)." else Except.error "boom")
    ⟨"key", "T", "M", "R"⟩ runReadyState 3 "boom" (fun _ => "Body (Smith, 2020).")
    rfl rfl (by norm_num) (by norm_num)
    (fun i p hi => by simp [hi]) (fun p => by norm_num)
  exact ⟨rfl, rfl, h.1, h.2.1, h.2.2.1, h.2.2.2⟩

/-- Per-section status rows expected when the run is cancelled after the
first k sections (1-based) completed: those k Complete with progress one,
the rest Pending with progress zero. -/
def expectedCancelStatuses (k : Nat) : List (String × String × ℚ) :=
  sections.enum.map (fun p =>
    (p.2.1, if p.1 < k then (("Complete", (1 : ℚ)) : String × ℚ) else ("Pending", 0)))

/-- Claim C3: when the cancellation flag becomes set after section k
completes and before section k+1 starts (and stays set), the run stops at
that boundary: later sections stay Pending (never Failed), no document is
saved, exactly k generation calls were issued, and the status label is
untouched, so no error is reported. -/
theorem cancellation_stops_at_boundary
    (gen : Nat → String → Except String String) (closing : Nat → Bool)
    (inp : RunInputs) (st : AppState) (k : Nat) (texts : Nat → String)
    (hst : st.statuses = pendingStatuses)
    (hv : (validate_inputs inp).1 = true)
    (hk1 : 1 ≤ k) (hk2 : k ≤ 5)
    (hok : ∀ i p, i < k → gen i p = Except.ok (texts i))
    (hclose : ∀ i, closing i = decide (k ≤ i)) :
    (generate_paper gen closing inp st).st.statuses = expectedCancelStatuses k
    ∧ (generate_paper gen closing inp st).saved = none
    ∧ (generate_paper gen closing inp st).genCalls = k
    ∧ (generate_paper gen closing inp st).st.status_label = st.status_label := by
  interval_cases k <;> refine ⟨?_, ?_, ?_, ?_⟩ <;>
    simp [generate_paper, hv, sections, runSections, hok, hclose, hst,
      update_progress, pendingStatuses, expectedCancelStatuses,
      List.enum, List.enumFrom]

/-- Witness for claim C3: cancellation after section 2 of 6 with concrete
inputs. -/
theorem cancellation_stops_at_boundary_witness :
    runReadyState.statuses = pendingStatuses
    ∧ (validate_inputs ⟨"key", "T", "M", "R"⟩).1 = true
    ∧ (generate_paper (fun _ _ => Except.ok "Body text.")
        (fun i => decide (2 ≤ i)) ⟨"key", "T", "M", "R"⟩ runReadyState).st.statuses
        = expectedCancelStatuses 2
    ∧ (generate_paper (fun _ _ => Except.ok "Body text.")
        (fun i => decide (2 ≤ i)) ⟨"key", "T", "M", "R"⟩ runReadyState).saved = none
    ∧ (generate_paper (fun _ _ => Except.ok "Body text.")
        (fun i => decide (2 ≤ i)) ⟨"key", "T", "M", "R"⟩ runReadyState).genCalls = 2
    ∧ (generate_paper (fun _ _ => Except.ok "Body text.")
        (fun i => decide (2 ≤ i)) ⟨"key", "T", "M", "R"⟩ runReadyState).st.status_label
        = runReadyState.status_label := by
  have h := cancellation_stops_at_boundary (fun _ _ => Except.ok "Body text.")
    (fun i => decide (2 ≤ i)) ⟨"key", "T", "M", "R"⟩ runReadyState 2
    (fun _ => "Body text.") rfl rfl (by norm_num) (by norm_num)
    (fun i p _ => rfl) (fun i => rfl)
  exact ⟨rfl, rfl, h.1, h.2.1, h.2.2.1, h.2.2.2⟩





